import Mathlib

/-!
# Verification of the translation-corpus dataset builders

Shallow embedding of the three dataset-loading scripts
(`kftt.py`, `iwslt14.py`, `jparacrawl.py`) and proofs about their
extraction, alignment and validation logic.

Conventions of the embedding:
* Python strings are `String`; `str.strip()` is `String.trim`;
  `s.split("\n")` is `pySplitLines` (returns `[""]` on `""`
  and keeps a trailing empty piece after a final newline).
* Python dicts used as insertion-ordered key/value maps are association
  lists (`List (String × String)`); `d[k] = v` is `dictInsert`, which
  overwrites in place like a Python dict.
* Generators are embedded as the list of pairs they would yield, and a
  function that can raise before yielding anything returns `Except`.
-/

/-- Python dict truthiness on an association list: a dict is truthy iff
it is non-empty. -/
def dictTruthy (d : List (String × String)) : Bool :=
  !d.isEmpty

/-- Insertion-ordered dict update, as a Python `d[k] = v`: if the key is
present its value is replaced in place, otherwise the pair is appended. -/
def dictInsert (d : List (String × String)) (k v : String) :
    List (String × String) :=
  if d.any (fun p => p.1 = k) then
    d.map (fun p => if p.1 = k then (k, v) else p)
  else
    d ++ [(k, v)]

/-- Python `k in d` on an association list. -/
def dictMem (d : List (String × String)) (k : String) : Bool :=
  d.any (fun p => p.1 = k)

/-- Python `d[k]` lookup (first matching key; keys are unique in a dict). -/
def dictGet (d : List (String × String)) (k : String) : Option String :=
  (d.find? (fun p => p.1 = k)).map (fun p => p.2)

/-! ## KFTT (`kftt.py`), positional mode

`KFTT._generate_examples(files, source_file, target_file)` scans the
archive stream `files` (pairs of path and decoded content) for the two
configured paths, splits each found file on `"\n"`, asserts equal line
counts, and yields `enumerate(zip(...))` pairs filtered by
`all(result.values())`.
-/

/-- One record yielded by the KFTT generator: the Python dict
`{"translation": {source: l1, target: l2}}`, whose single value is the
inner translation dict. -/
structure KFTTResult where
  translation : List (String × String)
  deriving Repr, DecidableEq

/-- Python `all(result.values())` at `kftt.py` line 134: `result` has the
single key `"translation"`, so the iteration visits exactly one value,
the inner translation dict, and `all` returns its truthiness. -/
def kfttAllValues (r : KFTTResult) : Bool :=
  dictTruthy r.translation

/-- Splitting a character list at every `'\n'`, keeping empty pieces:
the split always has one more piece than there are newlines. -/
def splitCharsAux : List Char → List (List Char)
  | [] => [[]]
  | c :: cs =>
    match splitCharsAux cs with
    | [] => [[c]]
    | h :: t => if c = '\n' then [] :: h :: t else (c :: h) :: t

/-- Python `content.split("\n")` (`kftt.py` lines 117 and 119): splits
on every newline and keeps empty pieces, so `""` gives `[""]` and a
trailing newline yields a final empty piece. -/
def pySplitLines (s : String) : List String :=
  (splitCharsAux s.data).map (fun cs => String.mk cs)

/-- The scanning loop of `_generate_examples` (`kftt.py` lines 115-121):
walk the `(path, content)` stream; `if path == source_file` record the
split source lines, `elif path == target_file` record the split target
lines, and break as soon as both are set. -/
def kfttScan (sf tf : String) :
    List (String × String) → Option (List String) → Option (List String) →
    Option (List String) × Option (List String)
  | [], s, t => (s, t)
  | (p, c) :: rest, s, t =>
    let s' := if p = sf then some (pySplitLines c) else s
    let t' := if p ≠ sf ∧ p = tf then some (pySplitLines c) else t
    if s'.isSome ∧ t'.isSome then (s', t') else kfttScan sf tf rest s' t'

/-- The yield loop of `_generate_examples` (`kftt.py` lines 131-135):
`for idx, (l1, l2) in enumerate(zip(source_sentences, target_sentences))`,
yielding `(idx, result)` when `all(result.values())` holds. The counter
starts at `idx` to mirror `enumerate`. -/
def kfttEmitFrom (s t : String) : Nat → List String → List String →
    List (Nat × KFTTResult)
  | _, [], _ => []
  | _, _ :: _, [] => []
  | idx, l1 :: ss, l2 :: ts =>
    let result : KFTTResult := ⟨[(s, l1), (t, l2)]⟩
    if kfttAllValues result then
      (idx, result) :: kfttEmitFrom s t (idx + 1) ss ts
    else
      kfttEmitFrom s t (idx + 1) ss ts

/-- `enumerate(zip(source_sentences, target_sentences))` emission,
starting at index 0. -/
def kfttEmit (s t : String) (ss ts : List String) : List (Nat × KFTTResult) :=
  kfttEmitFrom s t 0 ss ts

/-- Errors the KFTT generator can raise before yielding: `len(None)`
raises `TypeError` when a configured file was never seen in the archive
stream, and the line-count assertion raises `AssertionError`. -/
inductive KFTTError where
  | missingFile : KFTTError
  | sizeMismatch (ns nt : Nat) : KFTTError
  deriving Repr, DecidableEq

/-- `KFTT._generate_examples` as a whole: scan the stream, fail if a
side is missing (`len(None)` raises) or the line counts differ
(assertion at lines 123-128), otherwise yield the enumerated zipped
pairs. `s`/`t` are the configured language codes. -/
def kfttGenerateExamples (files : List (String × String))
    (sf tf s t : String) : Except KFTTError (List (Nat × KFTTResult)) :=
  match kfttScan sf tf files none none with
  | (some ss, some ts) =>
    if ts.length = ss.length then
      .ok (kfttEmit s t ss ts)
    else
      .error (.sizeMismatch ss.length ts.length)
  | (_, _) => .error .missingFile

/-! ## IWSLT14 (`iwslt14.py`)

Two extractors build a key → text dict per file, then the generator
aligns the source and target dicts by shared key.
-/

/-- One top-level element of the parsed inline-segment document
(`_parse_doc`, `iwslt14.py` lines 137-152).  Before parsing, every line
that does not start with `<` is wrapped as `<seg>line</seg>`, so the
soup is a flat sibling sequence of `url` elements, `seg` elements
(carrying the raw line as text) and other markup elements. -/
inductive Elem where
  | url : Elem
  | seg (text : String) : Elem
  | other (tag : String) : Elem
  deriving Repr, DecidableEq

/-- Whether an element is the document-boundary marker (`url`). -/
def Elem.isUrl : Elem → Bool
  | .url => true
  | _ => false

/-- The traversal of `_parse_doc`: `for url in soup.find_all('url')`
increments `docid` and resets `segid`, then walks directly-following
siblings while they are `seg` elements, inserting
`docid-{docid}_segid-{segid}` ↦ stripped text.  Rendered as a single
linear scan over the sibling list with state (current `docid`, current
`segid`, whether we are inside the seg-run that follows a marker): the
sibling walk of a marker stops at the first non-`seg` element, so the
runs of consecutive markers never overlap. -/
def parseDocAux : List Elem → Nat → Nat → Bool → List (String × String) →
    List (String × String)
  | [], _, _, _, d => d
  | .url :: rest, docid, _, _, d =>
    parseDocAux rest (docid + 1) 0 true d
  | .seg text :: rest, docid, segid, true, d =>
    parseDocAux rest docid (segid + 1) true
      (dictInsert d
        (String.append (String.append "docid-" (toString docid))
          (String.append "_segid-" (toString (segid + 1))))
        text.trim)
  | .seg _ :: rest, docid, segid, false, d =>
    parseDocAux rest docid segid false d
  | .other _ :: rest, docid, segid, _, d =>
    parseDocAux rest docid segid false d

/-- `_parse_doc` on the flat sibling list: `docid` starts at 0 and no
seg-run is open before the first marker. -/
def parseDoc (es : List Elem) : List (String × String) :=
  parseDocAux es 0 0 false []

/-- One `seg` element of a structured XML document: the `id` attribute
may be absent (then `seg.attrs['id']` raises `KeyError`). -/
structure XmlSeg where
  idAttr : Option String
  text : String
  deriving Repr, DecidableEq

/-- One `doc` element of a structured XML document (`_parse_xml`): the
`docid` attribute may be absent, and the element contains the inner
texts of its `title`, `description` and `seg` descendants in document
order. -/
structure XmlDoc where
  docidAttr : Option String
  titles : List String
  descs : List String
  segs : List XmlSeg
  deriving Repr, DecidableEq

/-- The fatal parse errors of `_parse_xml`: `doc.attrs['docid']` or
`seg.attrs['id']` raising `KeyError`. -/
inductive XmlError where
  | missingDocId : XmlError
  | missingSegId : XmlError
  deriving Repr, DecidableEq

/-- The inner seg loop of `_parse_xml` (`iwslt14.py` lines 164-166):
for each `seg`, read its `id` attribute (KeyError when absent) and
insert `docid-{docid}_segid-{segid}` ↦ stripped text. -/
def parseXmlSegs (docid : String) : List XmlSeg → List (String × String) →
    Except XmlError (List (String × String))
  | [], d => .ok d
  | sg :: rest, d =>
    match sg.idAttr with
    | none => .error .missingSegId
    | some segid =>
      parseXmlSegs docid rest
        (dictInsert d
          (String.append (String.append "docid-" docid)
            (String.append "_segid-" segid))
          sg.text.trim)

/-- The body of `_parse_xml` for one `doc` element (`iwslt14.py` lines
158-166): read the `docid` attribute (KeyError when absent), then
insert `docid-{docid}_title` for every `title`, `docid-{docid}_desc`
for every `description`, and one key per `seg`. -/
def parseXmlDoc (d : List (String × String)) (doc : XmlDoc) :
    Except XmlError (List (String × String)) :=
  match doc.docidAttr with
  | none => .error .missingDocId
  | some docid =>
    let d := doc.titles.foldl
      (fun d t => dictInsert d (String.append (String.append "docid-" docid) "_title") t.trim) d
    let d := doc.descs.foldl
      (fun d t => dictInsert d (String.append (String.append "docid-" docid) "_desc") t.trim) d
    parseXmlSegs docid doc.segs d

/-- `_parse_xml` over the list of `doc` elements found in the file. -/
def parseXml (docs : List XmlDoc) : Except XmlError (List (String × String)) :=
  docs.foldlM parseXmlDoc []

/-- The keyed aligner of `IWSLT14._generate_examples` (`iwslt14.py`
lines 184-192): `for k, src_sent in src.items(): if k in trg:` yield the
record `(k, (src_sent, trg[k]))`; keys absent from the target dict are
skipped silently. -/
def alignKeyed (src trg : List (String × String)) :
    List (String × String × String) :=
  src.filterMap (fun p =>
    if dictMem trg p.1 then
      (dictGet trg p.1).map (fun t => (p.1, p.2, t))
    else
      none)

/-! ## Builder-config validation

Each `BuilderConfig.__init__` validates the language pair with
assertions before any file is located or read; we model construction as
an `Except` returning the validated pair or a configuration error. -/

/-- A failed `assert` in a config constructor. -/
inductive ConfigError where
  | invalidPair : ConfigError
  deriving Repr, DecidableEq

/-- `_LANGUAGES` of `iwslt14.py` line 41. -/
def iwslt14Languages : List String :=
  ["ar", "de", "es", "fa", "he", "it", "nl", "pl", "pt-br", "ro", "ru", "sl", "tr", "zh"]

/-- `_PAIRS` of `iwslt14.py` line 42: every language paired with
`"en"` in both directions. -/
def iwslt14Pairs : List (String × String) :=
  (iwslt14Languages.map (fun lang => (lang, "en"))) ++
    (iwslt14Languages.map (fun lang => ("en", lang)))

/-- `IWSLT14Config.__init__` (`iwslt14.py` lines 48-66): after the
superclass call (pure string formatting, no I/O), `assert language_pair
in _PAIRS`. -/
def mkIWSLT14Config (p : String × String) : Except ConfigError (String × String) :=
  if p ∈ iwslt14Pairs then .ok p else .error .invalidPair

/-- `KFTTConfig.__init__` (`kftt.py` lines 45-66): `assert "en" in
language_pair` then `assert "ja" in language_pair`; no I/O. -/
def mkKFTTConfig (p : String × String) : Except ConfigError (String × String) :=
  if (p.1 = "en" ∨ p.2 = "en") ∧ (p.1 = "ja" ∨ p.2 = "ja") then
    .ok p
  else
    .error .invalidPair

/-- `JParaCrawlConfig.__init__` (`jparacrawl.py` lines 68-94): `assert
"en" in language_pair`, then `non_en = source if target == "en" else
target` and `assert non_en in ["ja", "zh"]`; no I/O. -/
def mkJParaCrawlConfig (p : String × String) : Except ConfigError (String × String) :=
  if p.1 = "en" ∨ p.2 = "en" then
    let nonEn := if p.2 = "en" then p.1 else p.2
    if nonEn = "ja" ∨ nonEn = "zh" then .ok p else .error .invalidPair
  else
    .error .invalidPair

/-! ## Helper lemmas -/

/-- A key is in the dict iff lookup succeeds. -/
lemma dictMem_iff_isSome (d : List (String × String)) (k : String) :
    dictMem d k = true ↔ (dictGet d k).isSome := by
  simp [dictMem, dictGet, List.any_eq_true, List.find?_isSome]

/-- The KFTT validity filter at `kftt.py` line 134 always passes: the
outer dict has the single value `{"translation": ...}`, a two-entry
dict, which is always truthy. -/
lemma kfttAllValues_true (s t l1 l2 : String) :
    kfttAllValues ⟨[(s, l1), (t, l2)]⟩ = true := rfl

/-! ## Claims -/

/-- C5: inline-segment extraction — the document index increments at
each `url` boundary marker, the segment index restarts at 1 after each
marker and counts only the directly-following `seg` siblings; two
consecutive markers each followed by two raw lines yield exactly the
keys `docid-1_segid-1`, `docid-1_segid-2`, `docid-2_segid-1`,
`docid-2_segid-2`, mapped to the trimmed raw-line texts. -/
theorem parseDoc_two_docs_two_segs (a b c d : String) :
    parseDoc [.url, .seg a, .seg b, .url, .seg c, .seg d] =
      [("docid-1_segid-1", a.trim), ("docid-1_segid-2", b.trim),
       ("docid-2_segid-1", c.trim), ("docid-2_segid-2", d.trim)] := rfl

/-- C6: structured-doc extraction — a `doc` with id `"5"` containing
one `title`, one `description` and two `seg` elements with ids `"1"`
and `"2"` yields exactly the four keys `docid-5_title`, `docid-5_desc`,
`docid-5_segid-1`, `docid-5_segid-2`, mapped to the trimmed inner
texts. -/
theorem parseXml_doc5 (t ds s1 s2 : String) :
    parseXml [⟨some "5", [t], [ds], [⟨some "1", s1⟩, ⟨some "2", s2⟩]⟩] =
      .ok [("docid-5_title", t.trim), ("docid-5_desc", ds.trim),
           ("docid-5_segid-1", s1.trim), ("docid-5_segid-2", s2.trim)] := rfl

/-- C2: contrary to the claim (and to the comment `# Make sure that
both translations are non-empty.` at `kftt.py` line 133), the KFTT
generator emits pairs with leading/trailing whitespace and pairs whose
sides are empty: `all(result.values())` tests the truthiness of the
single inner translation dict, which is never empty, so the filter
never rejects anything and the raw untrimmed lines are yielded. -/
theorem kftt_emits_empty_and_untrimmed :
    kfttGenerateExamples [("kyoto-train.en", " a \nb"), ("kyoto-train.ja", "c\n")]
      "kyoto-train.en" "kyoto-train.ja" "en" "ja" =
      .ok [(0, ⟨[("en", " a "), ("ja", "c")]⟩),
           (1, ⟨[("en", "b"), ("ja", "")]⟩)] := rfl

/-- C4 counterexample: the claim's clause "empty-text pairs are
excluded" is false — on two one-line-plus-newline files whose lines are
all empty, every empty pair is emitted. -/
theorem kftt_empty_pairs_not_excluded :
    kfttGenerateExamples [("f1", "\n"), ("f2", "\n")] "f1" "f2" "en" "ja" =
      .ok [(0, ⟨[("en", ""), ("ja", "")]⟩),
           (1, ⟨[("en", ""), ("ja", "")]⟩)] := rfl

/-- Elements met while no seg-run is open (i.e. before any boundary
marker has been seen, or after a run was broken) leave the scan state
unchanged unless they are a `url` marker. -/
lemma parseDocAux_append_of_no_url (pre : List Elem)
    (h : ∀ e ∈ pre, e.isUrl = false) (rest : List Elem) (docid segid : Nat)
    (d : List (String × String)) :
    parseDocAux (pre ++ rest) docid segid false d =
      parseDocAux rest docid segid false d := by
  induction pre with
  | nil => rfl
  | cons e pre ih =>
    have he : e.isUrl = false := h e (List.mem_cons_self e pre)
    have h' : ∀ e ∈ pre, e.isUrl = false := fun e hm => h e (List.mem_cons_of_mem _ hm)
    cases e with
    | url => simp [Elem.isUrl] at he
    | seg text => simpa [parseDocAux] using ih h'
    | other tag => simpa [parseDocAux] using ih h'

/-- C9: raw lines (and any other non-marker elements) that appear
before the first boundary marker receive no key — the extracted mapping
of `_parse_doc` is the same as if they were absent. -/
theorem parseDoc_drops_before_first_marker (pre rest : List Elem)
    (h : ∀ e ∈ pre, e.isUrl = false) :
    parseDoc (pre ++ rest) = parseDoc rest := by
  unfold parseDoc
  exact parseDocAux_append_of_no_url pre h rest 0 0 []

/-- Witness for C9 at a concrete input: a raw line and a control line
before the first `url` marker contribute nothing. -/
theorem parseDoc_drops_before_first_marker_wit :
    parseDoc [.seg "early", .other "talkid", .url, .seg "kept"] =
      parseDoc [.url, .seg "kept"] :=
  parseDoc_drops_before_first_marker [.seg "early", .other "talkid"]
    [.url, .seg "kept"] (by decide)

/-- If the membership test fails, the lookup fails, so the aligner's
per-entry step is just a lookup. -/
lemma alignKeyed_step (trg : List (String × String)) (p : String × String) :
    (if dictMem trg p.1 then (dictGet trg p.1).map (fun t => (p.1, p.2, t))
     else none) = (dictGet trg p.1).map (fun t => (p.1, p.2, t)) := by
  by_cases h : dictMem trg p.1
  · simp [h]
  · have : dictGet trg p.1 = none := by
      rcases hg : dictGet trg p.1 with _ | v
      · rfl
      · exact absurd ((dictMem_iff_isSome trg p.1).2 (by simp [hg])) h
    simp [h, this]

/-- The aligner is the lookup-based filterMap over the source dict. -/
lemma alignKeyed_eq_filterMap (src trg : List (String × String)) :
    alignKeyed src trg =
      src.filterMap (fun p => (dictGet trg p.1).map (fun t => (p.1, p.2, t))) := by
  unfold alignKeyed
  exact List.filterMap_congr (fun p _ => alignKeyed_step trg p)

/-- The keys of the aligner output are exactly the source keys that are
present in the target dict, in source order. -/
lemma alignKeyed_keys (src trg : List (String × String)) :
    (alignKeyed src trg).map (fun r => r.1) =
      (src.map Prod.fst).filter (fun k => dictMem trg k) := by
  rw [alignKeyed_eq_filterMap]
  induction src with
  | nil => rfl
  | cons p ps ih =>
    rcases hg : dictGet trg p.1 with _ | v
    · have hm : dictMem trg p.1 = false := by
        rcases hb : dictMem trg p.1
        · rfl
        · have := (dictMem_iff_isSome trg p.1).1 hb
          rw [hg] at this
          simp at this
      simp [List.filterMap_cons, hg, hm, ih]
    · have hm : dictMem trg p.1 = true := (dictMem_iff_isSome trg p.1).2 (by simp [hg])
      simp [List.filterMap_cons, hg, hm, ih]

/-- C1: keyed-mode alignment — given a source dict with unique keys (as
any Python dict has), the aligner emits exactly one record per key
present in both dicts, in source iteration order, with the two texts
looked up under that key in source and target; keys present on one side
only are dropped without error.  In particular
`align({"a":"x","b":"y"}, {"a":"X","c":"Z"})` is the single record
`("a", ("x", "X"))`. -/
theorem alignKeyed_spec (src trg : List (String × String))
    (h : (src.map Prod.fst).Nodup) :
    (alignKeyed src trg).map (fun r => r.1) =
        (src.map Prod.fst).filter (fun k => dictMem trg k)
    ∧ ((alignKeyed src trg).map (fun r => r.1)).Nodup
    ∧ (∀ k x y, (k, x, y) ∈ alignKeyed src trg ↔
        ((k, x) ∈ src ∧ dictGet trg k = some y))
    ∧ alignKeyed [("a", "x"), ("b", "y")] [("a", "X"), ("c", "Z")] =
        [("a", "x", "X")] := by
  refine ⟨alignKeyed_keys src trg, ?_, ?_, by decide⟩
  · rw [alignKeyed_keys]
    exact h.filter _
  · intro k x y
    rw [alignKeyed_eq_filterMap]
    constructor
    · intro hm
      rcases List.mem_filterMap.1 hm with ⟨p, hp, heq⟩
      rcases hg : dictGet trg p.1 with _ | v
      · rw [hg] at heq
        simp at heq
      · rw [hg] at heq
        simp only [Option.map_some', Option.some.injEq, Prod.mk.injEq] at heq
        obtain ⟨h1, h2, h3⟩ := heq
        have hpk : p = (k, x) := Prod.ext h1 h2
        refine ⟨hpk ▸ hp, ?_⟩
        rw [← h1, hg, h3]
    · rintro ⟨hp, hg⟩
      exact List.mem_filterMap.2 ⟨(k, x), hp, by simp [hg]⟩

/-- Witness for C1 at the spec's example input. -/
theorem alignKeyed_spec_wit :
    ((alignKeyed [("a", "x"), ("b", "y")] [("a", "X"), ("c", "Z")]).map
        (fun r => r.1)).Nodup
    ∧ alignKeyed [("a", "x"), ("b", "y")] [("a", "X"), ("c", "Z")] =
        [("a", "x", "X")] :=
  ⟨(alignKeyed_spec [("a", "x"), ("b", "y")] [("a", "X"), ("c", "Z")]
      (by decide)).2.1,
   (alignKeyed_spec [("a", "x"), ("b", "y")] [("a", "X"), ("c", "Z")]
      (by decide)).2.2.2⟩

/-- The emission loop is the identity enumeration of the zipped lines:
the validity filter always passes, so starting at counter `i` the
output is one record per zipped index. -/
lemma kfttEmitFrom_eq (s t : String) :
    ∀ (ss ts : List String), ss.length = ts.length → ∀ (i : Nat),
      kfttEmitFrom s t i ss ts =
        (List.range ss.length).map (fun j =>
          (i + j, (⟨[(s, ss.getD j ""), (t, ts.getD j "")]⟩ : KFTTResult))) := by
  intro ss
  induction ss with
  | nil =>
    intro ts h i
    simp [kfttEmitFrom]
  | cons l1 ss ih =>
    intro ts h i
    cases ts with
    | nil => simp at h
    | cons l2 ts =>
      simp only [List.length_cons] at h
      simp only [kfttEmitFrom, kfttAllValues, dictTruthy, List.isEmpty_cons,
        Bool.not_false, if_true]
      rw [ih ts (by omega) (i + 1)]
      rw [List.length_cons, List.range_succ_eq_map, List.map_cons, List.map_map]
      refine List.cons_eq_cons.2 ⟨by simp, ?_⟩
      refine List.map_congr_left (fun j hj => ?_)
      simp [Function.comp, Prod.ext_iff]
      omega

/-- C4 (amended): for two plain-text inputs of N lines each, the
output has exactly one record per line index — the intended exclusion
of empty-text pairs is ineffective, because `all(result.values())`
always passes — pairing the i-th source line with the i-th target line,
in index order, and the id of the i-th record is i (monotonically
increasing). -/
theorem kfttEmit_positional (s t : String) (ss ts : List String)
    (h : ss.length = ts.length) :
    kfttEmit s t ss ts =
      (List.range ss.length).map (fun i =>
        (i, (⟨[(s, ss.getD i ""), (t, ts.getD i "")]⟩ : KFTTResult)))
    ∧ (kfttEmit s t ss ts).length = ss.length := by
  have he := kfttEmitFrom_eq s t ss ts h 0
  constructor
  · rw [kfttEmit, he]
    exact List.map_congr_left (fun j hj => by simp)
  · rw [kfttEmit, he]
    simp

/-- Witness for C4's amended claim at a concrete input with an empty
line on the source side. -/
theorem kfttEmit_positional_wit :
    kfttEmit "en" "ja" ["a", ""] ["b", "c"] =
      [(0, ⟨[("en", "a"), ("ja", "b")]⟩), (1, ⟨[("en", ""), ("ja", "c")]⟩)]
    ∧ (kfttEmit "en" "ja" ["a", ""] ["b", "c"]).length = 2 := by
  have h := kfttEmit_positional "en" "ja" ["a", ""] ["b", "c"] rfl
  exact ⟨h.1.trans (by rfl), h.2⟩

/-- C3: positional-mode integrity — once both configured files are
found and split into lines, a differing line count makes the whole
generation fail with the size-mismatch error (nothing is yielded);
equal counts raise no such error and generation proceeds. -/
theorem kftt_size_mismatch_fatal (files : List (String × String))
    (sf tf s t : String) (ss ts : List String)
    (h : kfttScan sf tf files none none = (some ss, some ts)) :
    (ss.length ≠ ts.length →
      kfttGenerateExamples files sf tf s t =
        .error (.sizeMismatch ss.length ts.length))
    ∧ (ss.length = ts.length →
      kfttGenerateExamples files sf tf s t = .ok (kfttEmit s t ss ts)) := by
  unfold kfttGenerateExamples
  rw [h]
  constructor
  · intro hne
    have hne' : ¬ (ts.length = ss.length) := fun e => hne e.symm
    simp [hne']
  · intro he
    simp [he]

/-- Witness for C3: a two-line source against a one-line target aborts
with the size-mismatch error. -/
theorem kftt_size_mismatch_fatal_wit :
    kfttGenerateExamples [("s1", "a\nb"), ("t1", "c")] "s1" "t1" "en" "ja" =
      .error (.sizeMismatch 2 1) :=
  (kftt_size_mismatch_fatal [("s1", "a\nb"), ("t1", "c")] "s1" "t1" "en" "ja"
      ["a", "b"] ["c"] rfl).1 (by decide)

/-- If the source path never occurs in the stream, the scan never sets
the source side. -/
lemma kfttScan_fst_none (sf tf : String) :
    ∀ (files : List (String × String)) (t0 : Option (List String)),
      sf ∉ files.map Prod.fst → (kfttScan sf tf files none t0).1 = none := by
  intro files
  induction files with
  | nil => intro t0 h; rfl
  | cons pc rest ih =>
    intro t0 h
    obtain ⟨p, c⟩ := pc
    have hp : ¬ (p = sf) := by
      intro e
      exact h (by simp [e])
    have h' : sf ∉ rest.map Prod.fst := fun hm => h (by simp [hm])
    simpa [kfttScan, hp] using ih _ h'

/-- If the target path never occurs in the stream, the scan never sets
the target side. -/
lemma kfttScan_snd_none (sf tf : String) :
    ∀ (files : List (String × String)) (s0 : Option (List String)),
      tf ∉ files.map Prod.fst → (kfttScan sf tf files s0 none).2 = none := by
  intro files
  induction files with
  | nil => intro s0 h; rfl
  | cons pc rest ih =>
    intro s0 h
    obtain ⟨p, c⟩ := pc
    have hp : ¬ (p = tf) := by
      intro e
      exact h (by simp [e])
    have h' : tf ∉ rest.map Prod.fst := fun hm => h (by simp [hm])
    simpa [kfttScan, hp] using ih _ h'

/-- C10: if the archive stream never yields the configured source path
or never yields the configured target path, the KFTT generator fails
with an error (Python: `len(None)` raises `TypeError` before the yield
loop), emitting no record at all. -/
theorem kftt_missing_file_error (files : List (String × String))
    (sf tf s t : String)
    (h : sf ∉ files.map Prod.fst ∨ tf ∉ files.map Prod.fst) :
    kfttGenerateExamples files sf tf s t = .error .missingFile := by
  unfold kfttGenerateExamples
  rcases hscan : kfttScan sf tf files none none with ⟨os, ot⟩
  rcases h with h | h
  · have h1 : os = none := by
      have := kfttScan_fst_none sf tf files none h
      rw [hscan] at this
      exact this
    subst h1
    cases ot <;> rfl
  · have h1 : ot = none := by
      have := kfttScan_snd_none sf tf files none h
      rw [hscan] at this
      exact this
    subst h1
    cases os <;> rfl

/-- Witness for C10: a stream without the configured paths makes the
generator fail with the missing-file error. -/
theorem kftt_missing_file_error_wit :
    kfttGenerateExamples [("other.file", "x")] "train.en" "train.ja" "en" "ja" =
      .error .missingFile :=
  kftt_missing_file_error [("other.file", "x")] "train.en" "train.ja" "en" "ja"
    (Or.inl (by decide))

/-- A `seg` without its id attribute anywhere in the list makes the seg
loop fail with `missingSegId`, whatever dict has been accumulated. -/
lemma parseXmlSegs_error (docid : String) :
    ∀ (segs : List XmlSeg) (d : List (String × String)),
      (∃ sg ∈ segs, sg.idAttr = none) →
      parseXmlSegs docid segs d = .error .missingSegId := by
  intro segs
  induction segs with
  | nil =>
    intro d h
    simp at h
  | cons sg rest ih =>
    intro d h
    rcases hsg : sg.idAttr with _ | v
    · simp [parseXmlSegs, hsg]
    · have h' : ∃ s ∈ rest, s.idAttr = none := by
        rcases h with ⟨s, hs, hnone⟩
        rcases List.mem_cons.1 hs with rfl | hs'
        · rw [hnone] at hsg
          exact absurd hsg (by simp)
        · exact ⟨s, hs', hnone⟩
      simp [parseXmlSegs, hsg, ih _ h']

/-- A `doc` missing its own id attribute, or containing a `seg` missing
its id attribute, makes the per-doc extraction fail. -/
lemma parseXmlDoc_error (doc : XmlDoc) (d : List (String × String))
    (h : doc.docidAttr = none ∨ ∃ sg ∈ doc.segs, sg.idAttr = none) :
    ∃ e, parseXmlDoc d doc = .error e := by
  rcases hdoc : doc.docidAttr with _ | docid
  · exact ⟨.missingDocId, by simp [parseXmlDoc, hdoc]⟩
  · rcases h with h | h
    · rw [h] at hdoc
      simp at hdoc
    · refine ⟨.missingSegId, ?_⟩
      simp only [parseXmlDoc, hdoc]
      exact parseXmlSegs_error docid doc.segs _ h

/-- Folding the per-doc extraction over a list containing a bad `doc`
fails, from any starting dict. -/
lemma parseXml_foldlM_error :
    ∀ (docs : List XmlDoc) (d : List (String × String)),
      (∃ doc ∈ docs, doc.docidAttr = none ∨ ∃ sg ∈ doc.segs, sg.idAttr = none) →
      ∃ e, docs.foldlM parseXmlDoc d = .error e := by
  intro docs
  induction docs with
  | nil =>
    intro d h
    simp at h
  | cons doc rest ih =>
    intro d h
    cases hstep : parseXmlDoc d doc with
    | error e => exact ⟨e, by rw [List.foldlM_cons, hstep]; rfl⟩
    | ok d' =>
      rcases h with ⟨dd, hdd, hbad⟩
      rcases List.mem_cons.1 hdd with rfl | hdd'
      · rcases parseXmlDoc_error dd d hbad with ⟨e, he⟩
        rw [hstep] at he
        simp at he
      · rcases ih d' ⟨dd, hdd', hbad⟩ with ⟨e, he⟩
        exact ⟨e, by rw [List.foldlM_cons, hstep]; exact he⟩

/-- C7: structured-doc missing-id — whenever some `doc` element lacks
its `docid` attribute, or some `seg` element lacks its `id` attribute,
`_parse_xml` raises a fatal parse error (`KeyError`) instead of
substituting an id. -/
theorem parseXml_missing_id_error (docs : List XmlDoc)
    (h : ∃ doc ∈ docs, doc.docidAttr = none ∨ ∃ sg ∈ doc.segs, sg.idAttr = none) :
    ∃ e, parseXml docs = .error e :=
  parseXml_foldlM_error docs [] h

/-- Witness for C7: a well-identified `doc` whose second `seg` lacks
its id attribute makes extraction fail. -/
theorem parseXml_missing_id_error_wit :
    ∃ e, parseXml [⟨some "1", ["t"], [], [⟨some "1", "a"⟩, ⟨none, "b"⟩]⟩] =
      .error e :=
  parseXml_missing_id_error [⟨some "1", ["t"], [], [⟨some "1", "a"⟩, ⟨none, "b"⟩]⟩]
    (by decide)

/-! ## Configuration validation (C8)

The spec-side allowed sets, stated from the claim's words, to be
compared with the constructors embedded from the source. -/

/-- Spec wording for KFTT: the pair must contain both `"en"` and
`"ja"`. -/
def kfttSpecAllowed (p : String × String) : Prop :=
  ("en" = p.1 ∨ "en" = p.2) ∧ ("ja" = p.1 ∨ "ja" = p.2)

instance (p : String × String) : Decidable (kfttSpecAllowed p) := by
  unfold kfttSpecAllowed
  infer_instance

/-- Spec wording for JParaCrawl: the side of the pair that is not the
fixed pivot `"en"`. -/
def jparacrawlNonPivot (p : String × String) : String :=
  if p.1 = "en" then p.2 else p.1

/-- Spec wording for JParaCrawl: the pair must contain the pivot
`"en"` and its non-pivot side must be `"ja"` or `"zh"`. -/
def jparacrawlSpecAllowed (p : String × String) : Prop :=
  ("en" = p.1 ∨ "en" = p.2) ∧
    (jparacrawlNonPivot p = "ja" ∨ jparacrawlNonPivot p = "zh")

instance (p : String × String) : Decidable (jparacrawlSpecAllowed p) := by
  unfold jparacrawlSpecAllowed
  infer_instance

/-- C8: configuration-time validation — each builder config
constructor succeeds exactly on the corpus's allowed set (IWSLT14: the
declared pair list; KFTT: pairs containing both `"en"` and `"ja"`;
JParaCrawl: pairs containing the pivot `"en"` with non-pivot side in
`{"ja", "zh"}`), and fails with the configuration error otherwise; the
constructors perform no I/O, so the failure precedes any file access. -/
theorem builder_config_fail_fast (p : String × String) :
    (mkIWSLT14Config p = .ok p ↔ p ∈ iwslt14Pairs)
    ∧ (mkIWSLT14Config p = .error .invalidPair ↔ p ∉ iwslt14Pairs)
    ∧ (mkKFTTConfig p = .ok p ↔ kfttSpecAllowed p)
    ∧ (mkKFTTConfig p = .error .invalidPair ↔ ¬ kfttSpecAllowed p)
    ∧ (mkJParaCrawlConfig p = .ok p ↔ jparacrawlSpecAllowed p)
    ∧ (mkJParaCrawlConfig p = .error .invalidPair ↔ ¬ jparacrawlSpecAllowed p) := by
  obtain ⟨a, b⟩ := p
  refine ⟨?_, ?_, ?_, ?_, ?_, ?_⟩ <;>
    simp only [mkIWSLT14Config, mkKFTTConfig, mkJParaCrawlConfig,
      kfttSpecAllowed, jparacrawlSpecAllowed, jparacrawlNonPivot] <;>
    by_cases h1 : a = "en" <;> by_cases h2 : b = "en" <;>
    split_ifs <;> simp_all <;> tauto
